import Mathlib

/-
Verification of the workflow loading orchestrator in
src/invokeai/frontend/web/src/features/workflowLibrary/hooks/useLoadWorkflow.ts.

The orchestrator `loadWorkflow` takes a `GraphAndWorkflowResponse` (a record
with optional stringified `workflow` and `graph` fields), routes it through
JSON parsing, an optional graph-to-workflow conversion, and a validator, and
reports outcomes through external collaborators (toast notifications, logger,
redux dispatch, nanostores).  We embed it as a pure function from an
environment of collaborator functions and an input record to a trace of
collaborator events plus an optional returned workflow document.

Collaborators that live outside the given source file (JSON.parse,
graphToWorkflow, validateWorkflow, the i18n `t` function, fromZodError) are
opaque function fields of the environment; theorems quantify over them.
-/

namespace LoadWorkflow

/-- Classification of JavaScript error values that can reach the catch block
of `loadWorkflow`.  The catch block distinguishes, in order:
`WorkflowVersionError`, `WorkflowMigrationError`, `z.ZodError`, and everything
else.  `parseError` models a SyntaxError thrown by `JSON.parse`; `errorObj`
models a plain `new Error(message)` (such as the one thrown at line 40 of the
source); both fall into the final else branch of the catch. -/
inductive JsError where
  | workflowVersionError (message : String)
  | workflowMigrationError (message : String)
  | zodError (payload : String)
  | parseError (message : String)
  | errorObj (message : String)
  deriving DecidableEq, Repr

/-- The input record `GraphAndWorkflowResponse` from services/api/types: two
optional string fields.  `none` models an absent / null field. -/
structure GraphAndWorkflowResponse where
  workflow : Option String
  graph : Option String
  deriving DecidableEq, Repr

/-- A validation warning as consumed by the orchestrator: the code
destructures each warning as a `message` plus the rest of its fields
(`const ( message, ...rest )`), logging `log.warn(rest, message)`.  The rest
is kept abstract as one string of context. -/
structure Warning where
  message : String
  context : String
  deriving DecidableEq, Repr

/-- The result of `validateWorkflow`: the validated workflow document plus a
list of non-fatal warnings. -/
structure ValidationResult (W : Type) where
  workflow : W
  warnings : List Warning
  deriving DecidableEq, Repr

/-- A toast notification as issued by the `toast` collaborator. -/
structure Toast where
  id : String
  title : String
  status : String
  description : Option String
  deriving DecidableEq, Repr

/-- One observable call to an external collaborator made by `loadWorkflow`,
in program order.  `resetNodeExecutionStates` is the nanostores call setting
the per-node execution-state map to the empty object; `dispatchWorkflowLoaded`
is `dispatch(workflowLoaded(workflow))`; `setNeedsFit` is the nanostores call
raising the needs-layout-fit flag; `logWarn`/`logError` are logger calls
(`logError` keeps the serialized error value alongside the message). -/
inductive Event (W : Type) where
  | resetNodeExecutionStates
  | dispatchWorkflowLoaded (w : W)
  | toastEv (toastValue : Toast)
  | logWarn (context message : String)
  | logError (err : JsError) (message : String)
  | setNeedsFit (b : Bool)
  deriving DecidableEq, Repr

/-- The environment of external collaborators the orchestrator calls.
`W` is the type of validated workflow documents (WorkflowV3), `J` the type of
parsed JSON values, `T` the type of the templates snapshot.
`jsonParse` models `JSON.parse` (failure = SyntaxError with a message);
`graphToWorkflow` models the converter (its Bool argument is `doLayout`);
`validateWorkflow` models the validator called with the templates snapshot
(access checkers are absorbed into its behavior);
`t` is the i18n translation function; `fromZodError` maps a ZodError payload
and a prefix string to a human-readable message. -/
structure Env (W J T : Type) where
  templates : T
  jsonParse : String → Except String J
  graphToWorkflow : J → Bool → Except JsError J
  validateWorkflow : J → T → Except JsError (ValidationResult W)
  t : String → String
  fromZodError : String → String → String

/-- JavaScript truthiness of an optional string field: absent (undefined or
null) and the empty string are falsy. -/
def strTruthy : Option String → Bool
  | none => false
  | some s => !(s == "")

/-- Embedding of `getWorkflowFromStringifiedWorkflowOrGraph` (source lines
23-42).  If `data.workflow` is truthy it is parsed and validated; otherwise if
`data.graph` is truthy it is parsed, converted with `doLayout = true`, and the
conversion is validated; otherwise a plain Error is thrown. -/
def getWorkflowFromStringifiedWorkflowOrGraph {W J T : Type} (env : Env W J T)
    (data : GraphAndWorkflowResponse) : Except JsError (ValidationResult W) :=
  if strTruthy data.workflow then
    match env.jsonParse (data.workflow.getD "") with
    | .error m => .error (.parseError m)
    | .ok parsed => env.validateWorkflow parsed env.templates
  else if strTruthy data.graph then
    match env.jsonParse (data.graph.getD "") with
    | .error m => .error (.parseError m)
    | .ok parsed =>
      match env.graphToWorkflow parsed true with
      | .error e => .error e
      | .ok workflow => env.validateWorkflow workflow env.templates
  else
    .error (.errorObj "No workflow or graph provided")

/-- The description chosen by the catch block of `loadWorkflow` (source lines
76-115): a `WorkflowVersionError` or `WorkflowMigrationError` yields its own
message; a ZodError yields the `fromZodError` message with the
workflow-validation prefix; anything else yields the generic
unknown-error-validating-workflow message.  In every branch this same string
is both logged and used as the toast description. -/
def errorDescription {W J T : Type} (env : Env W J T) : JsError → String
  | .workflowVersionError m => m
  | .workflowMigrationError m => m
  | .zodError payload => env.fromZodError payload (env.t "nodes.workflowValidation")
  | .parseError _ => env.t "nodes.unknownErrorValidatingWorkflow"
  | .errorObj _ => env.t "nodes.unknownErrorValidatingWorkflow"

/-- Embedding of the `loadWorkflow` callback (source lines 48-117).  Returns
the ordered trace of collaborator events together with the value returned to
the caller (`some workflow` on success, `none` on failure). -/
def loadWorkflow {W J T : Type} (env : Env W J T)
    (data : GraphAndWorkflowResponse) : List (Event W) × Option W :=
  match getWorkflowFromStringifiedWorkflowOrGraph env data with
  | .ok res =>
    ([Event.resetNodeExecutionStates, Event.dispatchWorkflowLoaded res.workflow]
      ++ (if res.warnings.length == 0 then
            [Event.toastEv ⟨"WORKFLOW_LOADED", env.t "toast.workflowLoaded", "success", none⟩]
          else
            Event.toastEv ⟨"WORKFLOW_LOADED", env.t "toast.loadedWithWarnings", "warning", none⟩
              :: res.warnings.map (fun w => Event.logWarn w.context w.message))
      ++ [Event.setNeedsFit true],
     some res.workflow)
  | .error e =>
    ([Event.logError e (errorDescription env e),
      Event.toastEv ⟨"UNABLE_TO_VALIDATE_WORKFLOW", env.t "nodes.unableToValidateWorkflow",
        "error", some (errorDescription env e)⟩],
     none)

/-- The toasts issued in a trace, in order. -/
def toastEvents {W : Type} (trace : List (Event W)) : List Toast :=
  trace.filterMap fun e =>
    match e with
    | .toastEv v => some v
    | _ => none

/-- The warn-level log lines issued in a trace, in order, as
(context, message) pairs. -/
def warnLogEvents {W : Type} (trace : List (Event W)) : List (String × String) :=
  trace.filterMap fun e =>
    match e with
    | .logWarn c m => some (c, m)
    | _ => none

/-- A concrete test environment over `Nat` documents used to witness the
theorems on concrete inputs: the string "g" parses to the JSON value 1 and
"w" to 2, every other string fails to parse; conversion adds 10; validation
always succeeds with no warnings; translation is the identity. -/
def envA : Env Nat Nat Nat where
  templates := 0
  jsonParse := fun s =>
    if s = "g" then .ok 1 else if s = "w" then .ok 2 else .error "Unexpected token"
  graphToWorkflow := fun j _ => .ok (j + 10)
  validateWorkflow := fun j _ => .ok ⟨j, []⟩
  t := fun s => s
  fromZodError := fun payload pre => pre ++ ": " ++ payload

/-- A concrete environment whose validator always throws a
`WorkflowVersionError`, used to witness the error-description theorems. -/
def envB : Env Nat Nat Nat :=
  { envA with validateWorkflow := fun _ _ => .error (.workflowVersionError "bad version") }

/-- A concrete environment whose validator succeeds with one warning, used to
witness the success-notification theorems. -/
def envW : Env Nat Nat Nat :=
  { envA with validateWorkflow := fun j _ => .ok ⟨j, [⟨"unknown field", "ctx"⟩]⟩ }

/-- A versioned document as walked by the migration chain: a declared version
string plus an abstract payload. -/
structure VersionedDoc (P : Type) where
  version : String
  payload : P

/-- Modelled from the spec: the migration-chain registry inside the validator
(validateWorkflow lives outside the given source file).  `latest` is the
current version, `recognized` the set of known older versions, and `steps`
the ordered registry of (fromVersion, toVersion, pure transform) migration
steps. -/
structure MigrationChain (P : Type) where
  latest : String
  recognized : List String
  steps : List (String × String × (P → P))

/-- Modelled from the spec: walk the document version forward through the
registered migration steps until it reaches the latest version; a missing
step (gap in the chain) fails with a `WorkflowMigrationError`.  Fuel bounds
the walk; the validator supplies the registry size as fuel. -/
def migrateDoc {P : Type} (chain : MigrationChain P) :
    Nat → VersionedDoc P → Except JsError (VersionedDoc P)
  | 0, doc =>
    if doc.version = chain.latest then .ok doc
    else .error (.workflowMigrationError ("Workflow migration failed from version " ++ doc.version))
  | Nat.succ f, doc =>
    if doc.version = chain.latest then .ok doc
    else
      match chain.steps.find? (fun s => s.1 = doc.version) with
      | none =>
        .error (.workflowMigrationError ("Workflow migration failed from version " ++ doc.version))
      | some s => migrateDoc chain f ⟨s.2.1, s.2.2 doc.payload⟩

/-- Modelled from the spec: the validator proper.  A declared version that is
neither the latest nor in the recognized set fails with a
`WorkflowVersionError`; a recognized version is migrated to the latest
version (failure there is a `WorkflowMigrationError`); the fully migrated
document is then structurally validated by `postValidate`, which abstracts
the schema / cross-reference / access-check phase. -/
def validateWorkflowModel {P W : Type} (chain : MigrationChain P)
    (postValidate : VersionedDoc P → Except JsError (ValidationResult W))
    (doc : VersionedDoc P) : Except JsError (ValidationResult W) :=
  if doc.version = chain.latest ∨ doc.version ∈ chain.recognized then
    match migrateDoc chain chain.steps.length doc with
    | .error e => .error e
    | .ok migrated => postValidate migrated
  else
    .error (.workflowVersionError ("Workflow version " ++ doc.version ++ " is not recognized"))

/-- A concrete migration chain used for witnessing: latest version "3",
recognized older versions "1" and "2", but only the step from "2" to "3" is
registered, so "1" is recognized yet unbridgeable and "0" is unrecognized. -/
def chainC : MigrationChain Nat where
  latest := "3"
  recognized := ["1", "2"]
  steps := [("2", "3", fun p => p + 1)]

/-- A concrete environment over versioned `Nat` documents whose validator is
the modelled migration-chain validator over `chainC`. -/
def envC : Env Nat (VersionedDoc Nat) Nat where
  templates := 0
  jsonParse := fun s =>
    if s = "v0" then .ok ⟨"0", 5⟩
    else if s = "v1" then .ok ⟨"1", 5⟩
    else if s = "v2" then .ok ⟨"2", 5⟩
    else .error "Unexpected token"
  graphToWorkflow := fun j _ => .ok j
  validateWorkflow := fun d _ =>
    validateWorkflowModel chainC (fun d2 => .ok ⟨d2.payload, []⟩) d
  t := fun s => s
  fromZodError := fun payload pre => pre ++ ": " ++ payload

/-- Unfolding lemma: when the inner load/validate pipeline throws, the
orchestrator produces exactly the error log entry and the error toast, and
returns null. -/
lemma loadWorkflow_error_eq {W J T : Type} (env : Env W J T)
    (data : GraphAndWorkflowResponse) (e : JsError)
    (h : getWorkflowFromStringifiedWorkflowOrGraph env data = .error e) :
    loadWorkflow env data =
      ([Event.logError e (errorDescription env e),
        Event.toastEv ⟨"UNABLE_TO_VALIDATE_WORKFLOW", env.t "nodes.unableToValidateWorkflow",
          "error", some (errorDescription env e)⟩],
       none) := by
  unfold loadWorkflow
  rw [h]

/-- Unfolding lemma: when the inner load/validate pipeline succeeds, the
orchestrator resets execution states, dispatches the workflow, issues the
success or warning toast (logging each warning in the latter case), raises
the needs-fit flag, and returns the workflow. -/
lemma loadWorkflow_ok_eq {W J T : Type} (env : Env W J T)
    (data : GraphAndWorkflowResponse) (res : ValidationResult W)
    (h : getWorkflowFromStringifiedWorkflowOrGraph env data = .ok res) :
    loadWorkflow env data =
      ([Event.resetNodeExecutionStates, Event.dispatchWorkflowLoaded res.workflow]
        ++ (if res.warnings.length == 0 then
              [Event.toastEv ⟨"WORKFLOW_LOADED", env.t "toast.workflowLoaded", "success", none⟩]
            else
              Event.toastEv ⟨"WORKFLOW_LOADED", env.t "toast.loadedWithWarnings", "warning", none⟩
                :: res.warnings.map (fun w => Event.logWarn w.context w.message))
        ++ [Event.setNeedsFit true],
       some res.workflow) := by
  unfold loadWorkflow
  rw [h]

/-- Unfolding lemma: when the workflow field is truthy (present and
non-empty), the pipeline parses it and validates the parse result; the graph
field is not consulted. -/
lemma getWorkflow_workflow_truthy {W J T : Type} (env : Env W J T)
    (data : GraphAndWorkflowResponse) (w : String)
    (hw : data.workflow = some w) (hne : w ≠ "") :
    getWorkflowFromStringifiedWorkflowOrGraph env data =
      (match env.jsonParse w with
       | .error m => .error (.parseError m)
       | .ok parsed => env.validateWorkflow parsed env.templates) := by
  unfold getWorkflowFromStringifiedWorkflowOrGraph
  rw [hw]
  simp [strTruthy, hne]

/-- Unfolding lemma: when the workflow field is falsy and the graph field is
truthy, the pipeline parses the graph, converts it with layout enabled, and
validates the conversion. -/
lemma getWorkflow_graph_truthy {W J T : Type} (env : Env W J T)
    (data : GraphAndWorkflowResponse) (g : String)
    (hwf : strTruthy data.workflow = false) (hg : data.graph = some g) (hne : g ≠ "") :
    getWorkflowFromStringifiedWorkflowOrGraph env data =
      (match env.jsonParse g with
       | .error m => .error (.parseError m)
       | .ok parsed =>
         match env.graphToWorkflow parsed true with
         | .error e => .error e
         | .ok workflow => env.validateWorkflow workflow env.templates) := by
  unfold getWorkflowFromStringifiedWorkflowOrGraph
  rw [hg, hwf]
  simp [strTruthy, hne]

/-- The per-warning log lines contribute no toasts. -/
lemma toastEvents_map_logWarn {W : Type} (l : List Warning) :
    toastEvents (W := W) (l.map fun w => Event.logWarn w.context w.message) = [] := by
  induction l with
  | nil => rfl
  | cons hd tl ih => simp [toastEvents, List.filterMap_cons]

/-- The per-warning log lines are exactly the mapped (context, message)
pairs. -/
lemma warnLogEvents_map_logWarn {W : Type} (l : List Warning) :
    warnLogEvents (W := W) (l.map fun w => Event.logWarn w.context w.message) =
      l.map fun w => (w.context, w.message) := by
  induction l with
  | nil => rfl
  | cons hd tl ih => simpa [warnLogEvents, List.filterMap_cons] using ih

@[simp]
lemma toastEvents_nil {W : Type} : toastEvents (W := W) [] = [] := rfl

@[simp]
lemma toastEvents_cons {W : Type} (e : Event W) (es : List (Event W)) :
    toastEvents (e :: es) =
      (match e with | .toastEv v => [v] | _ => []) ++ toastEvents es := by
  cases e <;> rfl

@[simp]
lemma toastEvents_append {W : Type} (l1 l2 : List (Event W)) :
    toastEvents (l1 ++ l2) = toastEvents l1 ++ toastEvents l2 :=
  List.filterMap_append l1 l2 _

@[simp]
lemma warnLogEvents_nil {W : Type} : warnLogEvents (W := W) [] = [] := rfl

@[simp]
lemma warnLogEvents_cons {W : Type} (e : Event W) (es : List (Event W)) :
    warnLogEvents (e :: es) =
      (match e with | .logWarn c m => [(c, m)] | _ => []) ++ warnLogEvents es := by
  cases e <;> rfl

@[simp]
lemma warnLogEvents_append {W : Type} (l1 l2 : List (Event W)) :
    warnLogEvents (l1 ++ l2) = warnLogEvents l1 ++ warnLogEvents l2 :=
  List.filterMap_append l1 l2 _

/-- Claim C1: for every input and every error thrown during loading (parsing,
conversion, or validation), the orchestrator catches the error, issues exactly
one error notification whose description is derived from the error kind, and
returns null; it never propagates the error (the embedding is a total
function, and on every thrown error the result is `none` with a singleton
toast list). -/
theorem loadWorkflow_catches_all_errors {W J T : Type} (env : Env W J T)
    (data : GraphAndWorkflowResponse) (e : JsError)
    (h : getWorkflowFromStringifiedWorkflowOrGraph env data = .error e) :
    (loadWorkflow env data).2 = none ∧
    toastEvents (loadWorkflow env data).1 =
      [⟨"UNABLE_TO_VALIDATE_WORKFLOW", env.t "nodes.unableToValidateWorkflow",
        "error", some (errorDescription env e)⟩] := by
  rw [loadWorkflow_error_eq env data e h]
  simp [toastEvents]

/-- Witness for C1 on a concrete input: a graph string that fails to parse. -/
theorem loadWorkflow_catches_all_errors_witness :
    (loadWorkflow envA ⟨none, some "zzz"⟩).2 = none ∧
    toastEvents (loadWorkflow envA ⟨none, some "zzz"⟩).1 =
      [⟨"UNABLE_TO_VALIDATE_WORKFLOW", envA.t "nodes.unableToValidateWorkflow",
        "error", some (errorDescription envA (.parseError "Unexpected token"))⟩] :=
  loadWorkflow_catches_all_errors envA ⟨none, some "zzz"⟩
    (.parseError "Unexpected token") rfl

/-- Claim C3: when neither the workflow field nor the graph field is present,
the pipeline throws the specific plain Error with message "No workflow or
graph provided" (a distinct error value, distinguishable from every other
kind), the caller receives null, and the single notification issued is the
generic validation-failed one with the generic unknown-error description. -/
theorem loadWorkflow_missing_input {W J T : Type} (env : Env W J T)
    (data : GraphAndWorkflowResponse)
    (hw : data.workflow = none) (hg : data.graph = none) :
    getWorkflowFromStringifiedWorkflowOrGraph env data =
      .error (.errorObj "No workflow or graph provided") ∧
    (loadWorkflow env data).2 = none ∧
    toastEvents (loadWorkflow env data).1 =
      [⟨"UNABLE_TO_VALIDATE_WORKFLOW", env.t "nodes.unableToValidateWorkflow",
        "error", some (env.t "nodes.unknownErrorValidatingWorkflow")⟩] := by
  have hget : getWorkflowFromStringifiedWorkflowOrGraph env data =
      .error (.errorObj "No workflow or graph provided") := by
    unfold getWorkflowFromStringifiedWorkflowOrGraph
    rw [hw, hg]
    rfl
  refine ⟨hget, ?_, ?_⟩
  · rw [loadWorkflow_error_eq env data _ hget]
  · rw [loadWorkflow_error_eq env data _ hget]
    simp [toastEvents, errorDescription]

/-- Witness for C3 on the concrete empty input. -/
theorem loadWorkflow_missing_input_witness :
    getWorkflowFromStringifiedWorkflowOrGraph envA ⟨none, none⟩ =
      .error (.errorObj "No workflow or graph provided") ∧
    (loadWorkflow envA ⟨none, none⟩).2 = none ∧
    toastEvents (loadWorkflow envA ⟨none, none⟩).1 =
      [⟨"UNABLE_TO_VALIDATE_WORKFLOW", envA.t "nodes.unableToValidateWorkflow",
        "error", some (envA.t "nodes.unknownErrorValidatingWorkflow")⟩] :=
  loadWorkflow_missing_input envA ⟨none, none⟩ rfl rfl

/-- Claim C9: whenever loading fails, none of the success side effects occur:
no execution-state reset, no workflow dispatch, no needs-fit flag; the trace
is exactly one error log entry followed by one error notification, and the
result is null. -/
theorem loadWorkflow_failure_atomicity {W J T : Type} (env : Env W J T)
    (data : GraphAndWorkflowResponse) (e : JsError)
    (h : getWorkflowFromStringifiedWorkflowOrGraph env data = .error e) :
    (loadWorkflow env data).2 = none ∧
    (loadWorkflow env data).1 =
      [Event.logError e (errorDescription env e),
       Event.toastEv ⟨"UNABLE_TO_VALIDATE_WORKFLOW", env.t "nodes.unableToValidateWorkflow",
         "error", some (errorDescription env e)⟩] ∧
    Event.resetNodeExecutionStates ∉ (loadWorkflow env data).1 ∧
    (∀ w : W, Event.dispatchWorkflowLoaded w ∉ (loadWorkflow env data).1) ∧
    (∀ b : Bool, Event.setNeedsFit b ∉ (loadWorkflow env data).1) := by
  rw [loadWorkflow_error_eq env data e h]
  refine ⟨rfl, rfl, ?_, ?_, ?_⟩
  · simp
  · intro w; simp
  · intro b; simp

/-- Witness for C9 on a concrete input: a workflow string that fails to
parse. -/
theorem loadWorkflow_failure_atomicity_witness :
    (loadWorkflow envA ⟨some "bad", none⟩).2 = none ∧
    (loadWorkflow envA ⟨some "bad", none⟩).1 =
      [Event.logError (.parseError "Unexpected token")
         (errorDescription envA (.parseError "Unexpected token")),
       Event.toastEv ⟨"UNABLE_TO_VALIDATE_WORKFLOW", envA.t "nodes.unableToValidateWorkflow",
         "error", some (errorDescription envA (.parseError "Unexpected token"))⟩] ∧
    Event.resetNodeExecutionStates ∉ (loadWorkflow envA ⟨some "bad", none⟩).1 ∧
    (∀ w : Nat, Event.dispatchWorkflowLoaded w ∉ (loadWorkflow envA ⟨some "bad", none⟩).1) ∧
    (∀ b : Bool, Event.setNeedsFit b ∉ (loadWorkflow envA ⟨some "bad", none⟩).1) :=
  loadWorkflow_failure_atomicity envA ⟨some "bad", none⟩
    (.parseError "Unexpected token") rfl

/-- Counterexample to claim C2 as stated: the workflow field being present is
not sufficient for the loader to parse and validate it — JavaScript
truthiness skips an empty workflow string.  With `workflow = some ""` and
`graph = some "g"` the pipeline converts and validates the graph (result
`.ok ⟨11, []⟩`), whereas parsing and validating the workflow string would
fail with a SyntaxError; and with the same present workflow field but no
graph the outcome changes entirely, so the graph field is not ignored. -/
theorem getWorkflow_routing_cex :
    (GraphAndWorkflowResponse.mk (some "") (some "g")).workflow.isSome = true ∧
    getWorkflowFromStringifiedWorkflowOrGraph envA ⟨some "", some "g"⟩ = .ok ⟨11, []⟩ ∧
    (match envA.jsonParse "" with
     | .error m => Except.error (JsError.parseError m)
     | .ok parsed => envA.validateWorkflow parsed envA.templates) =
      .error (.parseError "Unexpected token") ∧
    getWorkflowFromStringifiedWorkflowOrGraph envA ⟨some "", none⟩ =
      .error (.errorObj "No workflow or graph provided") :=
  ⟨rfl, rfl, rfl, rfl⟩

/-- Claim C2 (amended): for every input whose workflow field is present and
non-empty (JavaScript-truthy), the loader parses that string and validates
the parse result, ignoring the graph field; otherwise, if the graph field is
present and non-empty, the loader parses it, converts it with layout enabled
(doLayout = true), and validates the converted result. -/
theorem getWorkflow_routing {W J T : Type} (env : Env W J T)
    (data : GraphAndWorkflowResponse) :
    (∀ w : String, data.workflow = some w → w ≠ "" →
      getWorkflowFromStringifiedWorkflowOrGraph env data =
        (match env.jsonParse w with
         | .error m => .error (.parseError m)
         | .ok parsed => env.validateWorkflow parsed env.templates)) ∧
    (∀ g : String, strTruthy data.workflow = false → data.graph = some g → g ≠ "" →
      getWorkflowFromStringifiedWorkflowOrGraph env data =
        (match env.jsonParse g with
         | .error m => .error (.parseError m)
         | .ok parsed =>
           match env.graphToWorkflow parsed true with
           | .error e => .error e
           | .ok workflow => env.validateWorkflow workflow env.templates)) :=
  ⟨fun w hw hne => getWorkflow_workflow_truthy env data w hw hne,
   fun g hwf hg hne => getWorkflow_graph_truthy env data g hwf hg hne⟩

/-- Witness for C2 on concrete inputs: a truthy workflow string is parsed and
validated even when a graph is also present, and a graph-only input is
converted and validated. -/
theorem getWorkflow_routing_witness :
    getWorkflowFromStringifiedWorkflowOrGraph envA ⟨some "w", some "zzz"⟩ = .ok ⟨2, []⟩ ∧
    getWorkflowFromStringifiedWorkflowOrGraph envA ⟨none, some "g"⟩ = .ok ⟨11, []⟩ := by
  constructor
  · rw [(getWorkflow_routing envA ⟨some "w", some "zzz"⟩).1 "w" rfl (by decide)]
    rfl
  · rw [(getWorkflow_routing envA ⟨none, some "g"⟩).2 "g" rfl rfl (by decide)]
    rfl

/-- Counterexample to claim C4 as stated: an input can carry a graph string
that is not parseable and still load successfully, because a truthy workflow
field is preferred and the graph string is never parsed. -/
theorem loadWorkflow_malformed_cex :
    (GraphAndWorkflowResponse.mk (some "w") (some "zzz")).graph = some "zzz" ∧
    envA.jsonParse "zzz" = .error "Unexpected token" ∧
    (loadWorkflow envA ⟨some "w", some "zzz"⟩).2 = some 2 :=
  ⟨rfl, rfl, rfl⟩

/-- Claim C4 (amended): whenever the string the loader selects for parsing —
the workflow string when truthy, otherwise the truthy graph string — is not
parseable, loading fails with the SyntaxError from JSON.parse, surfaced as
the generic validation-failed notification, and the caller receives null. -/
theorem loadWorkflow_malformed_input {W J T : Type} (env : Env W J T)
    (data : GraphAndWorkflowResponse) (m : String) :
    (∀ w : String, data.workflow = some w → w ≠ "" → env.jsonParse w = .error m →
      getWorkflowFromStringifiedWorkflowOrGraph env data = .error (.parseError m) ∧
      (loadWorkflow env data).2 = none ∧
      Event.logError (.parseError m) (env.t "nodes.unknownErrorValidatingWorkflow")
        ∈ (loadWorkflow env data).1 ∧
      toastEvents (loadWorkflow env data).1 =
        [⟨"UNABLE_TO_VALIDATE_WORKFLOW", env.t "nodes.unableToValidateWorkflow", "error",
          some (env.t "nodes.unknownErrorValidatingWorkflow")⟩]) ∧
    (∀ g : String, strTruthy data.workflow = false → data.graph = some g → g ≠ "" →
      env.jsonParse g = .error m →
      getWorkflowFromStringifiedWorkflowOrGraph env data = .error (.parseError m) ∧
      (loadWorkflow env data).2 = none ∧
      Event.logError (.parseError m) (env.t "nodes.unknownErrorValidatingWorkflow")
        ∈ (loadWorkflow env data).1 ∧
      toastEvents (loadWorkflow env data).1 =
        [⟨"UNABLE_TO_VALIDATE_WORKFLOW", env.t "nodes.unableToValidateWorkflow", "error",
          some (env.t "nodes.unknownErrorValidatingWorkflow")⟩]) := by
  constructor
  · intro w hw hne hp
    have hget : getWorkflowFromStringifiedWorkflowOrGraph env data =
        .error (.parseError m) := by
      rw [getWorkflow_workflow_truthy env data w hw hne, hp]
    rw [loadWorkflow_error_eq env data _ hget]
    exact ⟨hget, rfl, List.Mem.head _, by simp [errorDescription]⟩
  · intro g hwf hg hne hp
    have hget : getWorkflowFromStringifiedWorkflowOrGraph env data =
        .error (.parseError m) := by
      rw [getWorkflow_graph_truthy env data g hwf hg hne, hp]
    rw [loadWorkflow_error_eq env data _ hget]
    exact ⟨hget, rfl, List.Mem.head _, by simp [errorDescription]⟩

/-- Witness for C4 on a concrete input: an unparseable workflow string. -/
theorem loadWorkflow_malformed_input_witness :
    getWorkflowFromStringifiedWorkflowOrGraph envA ⟨some "zzz", none⟩ =
      .error (.parseError "Unexpected token") ∧
    (loadWorkflow envA ⟨some "zzz", none⟩).2 = none ∧
    Event.logError (.parseError "Unexpected token")
      (envA.t "nodes.unknownErrorValidatingWorkflow")
      ∈ (loadWorkflow envA ⟨some "zzz", none⟩).1 ∧
    toastEvents (loadWorkflow envA ⟨some "zzz", none⟩).1 =
      [⟨"UNABLE_TO_VALIDATE_WORKFLOW", envA.t "nodes.unableToValidateWorkflow", "error",
        some (envA.t "nodes.unknownErrorValidatingWorkflow")⟩] :=
  (loadWorkflow_malformed_input envA ⟨some "zzz", none⟩ "Unexpected token").1
    "zzz" rfl (by decide) rfl

/-- Claim C5: the error notification description is determined by the error
kind: a WorkflowVersionError or WorkflowMigrationError contributes its own
message; a ZodError contributes the fromZodError message prefixed with the
workflow-validation string; any other error (SyntaxError, plain Error)
contributes the generic unknown-error-validating-workflow message. -/
theorem loadWorkflow_error_description_by_kind {W J T : Type} (env : Env W J T)
    (data : GraphAndWorkflowResponse) (e : JsError)
    (h : getWorkflowFromStringifiedWorkflowOrGraph env data = .error e) :
    toastEvents (loadWorkflow env data).1 =
      [⟨"UNABLE_TO_VALIDATE_WORKFLOW", env.t "nodes.unableToValidateWorkflow", "error",
        some (match e with
              | JsError.workflowVersionError m2 => m2
              | JsError.workflowMigrationError m2 => m2
              | JsError.zodError payload =>
                env.fromZodError payload (env.t "nodes.workflowValidation")
              | JsError.parseError _ => env.t "nodes.unknownErrorValidatingWorkflow"
              | JsError.errorObj _ => env.t "nodes.unknownErrorValidatingWorkflow")⟩] := by
  rw [loadWorkflow_error_eq env data e h]
  cases e <;> simp [errorDescription]

/-- Witness for C5 on a concrete input: a validator that throws a
WorkflowVersionError surfaces that error's own message. -/
theorem loadWorkflow_error_description_by_kind_witness :
    toastEvents (loadWorkflow envB ⟨some "w", none⟩).1 =
      [⟨"UNABLE_TO_VALIDATE_WORKFLOW", envB.t "nodes.unableToValidateWorkflow", "error",
        some "bad version"⟩] :=
  loadWorkflow_error_description_by_kind envB ⟨some "w", none⟩
    (.workflowVersionError "bad version") rfl

/-- Claim C6: on every successful load exactly one success notification is
issued, the plain loaded toast when the warning list is empty and the
distinct loaded-with-warnings toast otherwise, and each warning is
individually logged as one warn-level log line (never one notification per
warning). -/
theorem loadWorkflow_success_notification {W J T : Type} (env : Env W J T)
    (data : GraphAndWorkflowResponse) (res : ValidationResult W)
    (h : getWorkflowFromStringifiedWorkflowOrGraph env data = .ok res) :
    toastEvents (loadWorkflow env data).1 =
      [if res.warnings.length == 0 then
         ⟨"WORKFLOW_LOADED", env.t "toast.workflowLoaded", "success", none⟩
       else
         ⟨"WORKFLOW_LOADED", env.t "toast.loadedWithWarnings", "warning", none⟩] ∧
    warnLogEvents (loadWorkflow env data).1 =
      res.warnings.map (fun w => (w.context, w.message)) := by
  rw [loadWorkflow_ok_eq env data res h]
  cases hwl : res.warnings with
  | nil => simp [hwl]
  | cons hd tl =>
    simp [hwl, toastEvents_map_logWarn, warnLogEvents_map_logWarn]

/-- Witness for C6 on concrete inputs: a warning-free validation yields the
loaded toast and no warn logs; a validation with one warning yields the
loaded-with-warnings toast and that warning as one log line. -/
theorem loadWorkflow_success_notification_witness :
    (toastEvents (loadWorkflow envA ⟨some "w", none⟩).1 =
       [⟨"WORKFLOW_LOADED", envA.t "toast.workflowLoaded", "success", none⟩] ∧
     warnLogEvents (loadWorkflow envA ⟨some "w", none⟩).1 = []) ∧
    (toastEvents (loadWorkflow envW ⟨some "w", none⟩).1 =
       [⟨"WORKFLOW_LOADED", envW.t "toast.loadedWithWarnings", "warning", none⟩] ∧
     warnLogEvents (loadWorkflow envW ⟨some "w", none⟩).1 = [("ctx", "unknown field")]) :=
  ⟨loadWorkflow_success_notification envA ⟨some "w", none⟩ ⟨2, []⟩ rfl,
   loadWorkflow_success_notification envW ⟨some "w", none⟩
     ⟨2, [⟨"unknown field", "ctx"⟩]⟩ rfl⟩

/-- Claim C7: on every successful load all three side effects occur via the
collaborators: the execution-state storage is reset, the validated document
is published through the workflowLoaded dispatch, and the needs-layout-fit
flag is raised. -/
theorem loadWorkflow_success_effects {W J T : Type} (env : Env W J T)
    (data : GraphAndWorkflowResponse) (res : ValidationResult W)
    (h : getWorkflowFromStringifiedWorkflowOrGraph env data = .ok res) :
    Event.resetNodeExecutionStates ∈ (loadWorkflow env data).1 ∧
    Event.dispatchWorkflowLoaded res.workflow ∈ (loadWorkflow env data).1 ∧
    Event.setNeedsFit true ∈ (loadWorkflow env data).1 := by
  rw [loadWorkflow_ok_eq env data res h]
  refine ⟨by simp, by simp, by simp⟩

/-- Witness for C7 on a concrete input. -/
theorem loadWorkflow_success_effects_witness :
    Event.resetNodeExecutionStates ∈ (loadWorkflow envA ⟨some "w", none⟩).1 ∧
    Event.dispatchWorkflowLoaded 2 ∈ (loadWorkflow envA ⟨some "w", none⟩).1 ∧
    Event.setNeedsFit true ∈ (loadWorkflow envA ⟨some "w", none⟩).1 :=
  loadWorkflow_success_effects envA ⟨some "w", none⟩ ⟨2, []⟩ rfl

/-- Claim C10: on every successful load the value returned to the caller is
exactly the validated document that was dispatched through workflowLoaded,
and the execution-state reset is the first collaborator call, before the
dispatch. -/
theorem loadWorkflow_returns_published_doc {W J T : Type} (env : Env W J T)
    (data : GraphAndWorkflowResponse) (res : ValidationResult W)
    (h : getWorkflowFromStringifiedWorkflowOrGraph env data = .ok res) :
    (loadWorkflow env data).2 = some res.workflow ∧
    (loadWorkflow env data).1.take 2 =
      [Event.resetNodeExecutionStates, Event.dispatchWorkflowLoaded res.workflow] := by
  rw [loadWorkflow_ok_eq env data res h]
  exact ⟨rfl, rfl⟩

/-- Witness for C10 on a concrete input. -/
theorem loadWorkflow_returns_published_doc_witness :
    (loadWorkflow envA ⟨some "w", none⟩).2 = some 2 ∧
    (loadWorkflow envA ⟨some "w", none⟩).1.take 2 =
      [Event.resetNodeExecutionStates, Event.dispatchWorkflowLoaded 2] :=
  loadWorkflow_returns_published_doc envA ⟨some "w", none⟩ ⟨2, []⟩ rfl

/-- Every failure of the migration walk is a WorkflowMigrationError. -/
lemma migrateDoc_error_kind {P : Type} (chain : MigrationChain P) :
    ∀ (fuel : Nat) (doc : VersionedDoc P) (e : JsError),
      migrateDoc chain fuel doc = .error e →
      ∃ m : String, e = .workflowMigrationError m := by
  intro fuel
  induction fuel with
  | zero =>
    intro doc e h
    simp only [migrateDoc] at h
    split at h
    · exact absurd h (by simp)
    · exact ⟨_, (Except.error.inj h).symm⟩
  | succ f ih =>
    intro doc e h
    simp only [migrateDoc] at h
    split at h
    · exact absurd h (by simp)
    · split at h
      · exact ⟨_, (Except.error.inj h).symm⟩
      · exact ih _ _ h

/-- Claim C8: with the validator modelled as the migration-chain validator,
a document whose declared version is neither the latest nor in the
recognized set makes the load return null with a WorkflowVersionError, logged
and surfaced with its version-not-recognized message; a document whose
version is recognized but whose migration to the latest version fails makes
the load return null with a WorkflowMigrationError (every migration failure
is of that kind), logged and surfaced with its migration-failed message; and
the two kinds are distinct. -/
theorem loadWorkflow_version_and_migration_errors {W P T : Type}
    (env : Env W (VersionedDoc P) T) (chain : MigrationChain P)
    (postValidate : VersionedDoc P → Except JsError (ValidationResult W))
    (henv : env.validateWorkflow = fun d _ => validateWorkflowModel chain postValidate d)
    (data : GraphAndWorkflowResponse) (w : String) (doc : VersionedDoc P)
    (hw : data.workflow = some w) (hne : w ≠ "") (hp : env.jsonParse w = .ok doc) :
    (¬ (doc.version = chain.latest ∨ doc.version ∈ chain.recognized) →
      loadWorkflow env data =
        ([Event.logError
            (.workflowVersionError ("Workflow version " ++ doc.version ++ " is not recognized"))
            ("Workflow version " ++ doc.version ++ " is not recognized"),
          Event.toastEv ⟨"UNABLE_TO_VALIDATE_WORKFLOW", env.t "nodes.unableToValidateWorkflow",
            "error", some ("Workflow version " ++ doc.version ++ " is not recognized")⟩],
         none)) ∧
    (∀ e : JsError, migrateDoc chain chain.steps.length doc = .error e →
      ∃ m2 : String, e = .workflowMigrationError m2) ∧
    (∀ m2 : String, (doc.version = chain.latest ∨ doc.version ∈ chain.recognized) →
      migrateDoc chain chain.steps.length doc = .error (.workflowMigrationError m2) →
      loadWorkflow env data =
        ([Event.logError (.workflowMigrationError m2) m2,
          Event.toastEv ⟨"UNABLE_TO_VALIDATE_WORKFLOW", env.t "nodes.unableToValidateWorkflow",
            "error", some m2⟩],
         none)) ∧
    (∀ m2 m3 : String, JsError.workflowVersionError m2 ≠ JsError.workflowMigrationError m3) := by
  have hget : getWorkflowFromStringifiedWorkflowOrGraph env data =
      validateWorkflowModel chain postValidate doc := by
    rw [getWorkflow_workflow_truthy env data w hw hne, hp, henv]
  refine ⟨?_, fun e he => migrateDoc_error_kind chain _ doc e he, ?_, ?_⟩
  · intro hv
    have he : getWorkflowFromStringifiedWorkflowOrGraph env data =
        .error (.workflowVersionError
          ("Workflow version " ++ doc.version ++ " is not recognized")) := by
      rw [hget]
      unfold validateWorkflowModel
      rw [if_neg hv]
    rw [loadWorkflow_error_eq env data _ he]
    rfl
  · intro m2 hv hm
    have he : getWorkflowFromStringifiedWorkflowOrGraph env data =
        .error (.workflowMigrationError m2) := by
      rw [hget]
      unfold validateWorkflowModel
      rw [if_pos hv, hm]
    rw [loadWorkflow_error_eq env data _ he]
    rfl
  · intro m2 m3 hcontra
    exact JsError.noConfusion hcontra

/-- Witness for C8 on concrete inputs over `chainC`: version "0" is
unrecognized, version "1" is recognized but has no registered migration
step. -/
theorem loadWorkflow_version_and_migration_errors_witness :
    loadWorkflow envC ⟨some "v0", none⟩ =
      ([Event.logError (.workflowVersionError "Workflow version 0 is not recognized")
          "Workflow version 0 is not recognized",
        Event.toastEv ⟨"UNABLE_TO_VALIDATE_WORKFLOW", envC.t "nodes.unableToValidateWorkflow",
          "error", some "Workflow version 0 is not recognized"⟩],
       none) ∧
    loadWorkflow envC ⟨some "v1", none⟩ =
      ([Event.logError (.workflowMigrationError "Workflow migration failed from version 1")
          "Workflow migration failed from version 1",
        Event.toastEv ⟨"UNABLE_TO_VALIDATE_WORKFLOW", envC.t "nodes.unableToValidateWorkflow",
          "error", some "Workflow migration failed from version 1"⟩],
       none) := by
  constructor
  · exact (loadWorkflow_version_and_migration_errors envC chainC _ rfl ⟨some "v0", none⟩
      "v0" ⟨"0", 5⟩ rfl (by decide) rfl).1 (by decide)
  · exact (loadWorkflow_version_and_migration_errors envC chainC _ rfl ⟨some "v1", none⟩
      "v1" ⟨"1", 5⟩ rfl (by decide) rfl).2.2.1 "Workflow migration failed from version 1"
      (by decide) rfl

end LoadWorkflow
